import Mathlib

/-!
Shallow embedding of the PythonWEB_hw14 backend (FastAPI + SQLAlchemy address
book with JWT authentication), covering the contact repository
(src/repository/contacts.py), the user repository (src/repository/users.py),
the authentication service (src/services/auth.py) and the authentication
routes (src/routes/auth.py).

Conventions of the embedding:
- The database session is modelled as an explicit list of rows; each mutating
  operation returns the new list.
- `datetime.now()` is modelled as an explicit parameter (`now : Int`, seconds
  since an arbitrary epoch, for tokens; `today : PDate` for the birthday scan).
- Python exceptions that the code raises on purpose (`HTTPException`) and
  uncaught crashes (`KeyError`, `AttributeError`, `ValueError`) are separate
  outcomes of the `AuthResult` / `Except` types.
-/

namespace HW14

/-! ### Calendar dates (Python `datetime.date`, proleptic Gregorian) -/

/-- A calendar date as Python's `datetime.date` holds it: year, month, day.
Python restricts years to 1..9999 and validates month/day at construction;
validity is checked separately by `dateValid`. -/
structure PDate where
  year : Nat
  month : Nat
  day : Nat
deriving DecidableEq, Repr

/-- Leap-year test of the Gregorian calendar (as Python's `calendar.isleap`,
used implicitly by `datetime.date` arithmetic). -/
def isLeap (y : Nat) : Bool :=
  (y % 4 = 0 && y % 100 ≠ 0) || y % 400 = 0

/-- Number of days of the given month (1..12); 0 for an out-of-range month. -/
def monthLength (leap : Bool) (m : Nat) : Nat :=
  match m with
  | 1 => 31
  | 2 => if leap then 29 else 28
  | 3 => 31
  | 4 => 30
  | 5 => 31
  | 6 => 30
  | 7 => 31
  | 8 => 31
  | 9 => 30
  | 10 => 31
  | 11 => 30
  | 12 => 31
  | _ => 0

/-- Days elapsed before the first of the given month in a year. -/
def daysBeforeMonth (leap : Bool) (m : Nat) : Nat :=
  match m with
  | 1 => 0
  | 2 => 31
  | 3 => 59 + (if leap then 1 else 0)
  | 4 => 90 + (if leap then 1 else 0)
  | 5 => 120 + (if leap then 1 else 0)
  | 6 => 151 + (if leap then 1 else 0)
  | 7 => 181 + (if leap then 1 else 0)
  | 8 => 212 + (if leap then 1 else 0)
  | 9 => 243 + (if leap then 1 else 0)
  | 10 => 273 + (if leap then 1 else 0)
  | 11 => 304 + (if leap then 1 else 0)
  | 12 => 334 + (if leap then 1 else 0)
  | _ => 0

/-- The validity check Python's `datetime(year, month, day)` constructor
performs; an invalid combination raises `ValueError`. -/
def dateValid (y m d : Nat) : Bool :=
  1 ≤ y && y ≤ 9999 && 1 ≤ m && m ≤ 12 && 1 ≤ d && d ≤ monthLength (isLeap y) m

/-- `datetime(y, m, d).date()`: returns the date or raises `ValueError`. -/
def mkDate (y m d : Nat) : Except String PDate :=
  if dateValid y m d then .ok ⟨y, m, d⟩ else .error "ValueError"

/-- Ordinal day number of a date (Python's `date.toordinal()` shifted by one:
0001-01-01 maps to 0).  Differences of ordinals are exactly Python's
`(a - b).days`. -/
def toDays (d : PDate) : Nat :=
  let y := d.year - 1
  365 * y + y / 4 - y / 100 + y / 400 + daysBeforeMonth (isLeap d.year) d.month + (d.day - 1)

/-- Python's lexicographic comparison `a < b` on `datetime.date`. -/
def PDate.lt (a b : PDate) : Bool :=
  a.year < b.year ||
    (a.year = b.year && (a.month < b.month || (a.month = b.month && a.day < b.day)))

/-! ### Data model (src/entity/models.py) -/

/-- Row of the `contacts` table.  `birthday` is a non-nullable `Date` column
(and a required field of `ContactSchema`), so every stored contact carries a
date; `user_id` is a nullable foreign key; timestamps are `DateTime` values
modelled as `Int`. -/
structure Contact where
  id : Nat
  first_name : String
  last_name : String
  email : String
  phone_number : String
  birthday : PDate
  additional_data : Option String
  created_at : Int
  updated_at : Int
  user_id : Option Nat
deriving DecidableEq, Repr

/-! ### JWT tokens (python-jose, as used by src/services/auth.py) -/

/-- The claim set of a JWT issued by this application.  Every issuance path
(`create_access_token`, `create_refresh_token`, `create_email_token`) starts
from `data = {"sub": <email string>}` and adds `iat` and `exp`; the first two
also add a `scope` claim, the email token does not (`scope = none`). -/
structure Claims where
  sub : String
  scope : Option String
  iat : Int
  exp : Int
deriving DecidableEq, Repr

/-- An encoded JWT string.  `jwt.encode` is deterministic and injective on
(claims, signing key), so the encoded string is modelled by the pair itself;
string equality of encodings is equality of `Token` values. -/
structure Token where
  claims : Claims
  key : String
deriving DecidableEq, Repr

/-- `jwt.encode(to_encode, key, algorithm)`. -/
def jwtEncode (claims : Claims) (key : String) : Token :=
  ⟨claims, key⟩

/-- `jwt.decode(token, key, algorithms)` of python-jose at time `now`: the
signature check fails unless the token was signed with `key`, and an `exp`
claim strictly in the past raises `ExpiredSignatureError`; both are subclasses
of `JWTError`. -/
def jwtDecode (t : Token) (key : String) (now : Int) : Except String Claims :=
  if t.key = key then
    if t.claims.exp < now then .error "ExpiredSignatureError" else .ok t.claims
  else .error "JWTError"

/-- `config.SECRET_KEY_JWT` (src/conf/config.py default). -/
def SECRET_KEY : String := "1234567890"

/-- Row of the `users` table (src/entity/models.py, class `User`).  The stored
refresh token is the encoded JWT string, modelled as a `Token` value (see
`Token`); `password` holds the passlib digest string. -/
structure DBUser where
  id : Nat
  username : String
  email : String
  password : String
  avatar : Option String
  refresh_token : Option Token
  confirmed : Bool
  created_at : Int
  updated_at : Int
deriving DecidableEq, Repr

/-! ### Contact repository (src/repository/contacts.py) -/

/-- `get_contact(contact_id, user, db)`: `select(Contact).filter(Contact.id ==
contact_id, Contact.user_id == user.id)`, then `scalar_one_or_none()` (ids are
the primary key, so at most one row matches). -/
def get_contact (contact_id : Nat) (user : DBUser) (db : List Contact) : Option Contact :=
  (db.filter (fun c => c.id = contact_id && c.user_id = some user.id)).head?

/-- `ContactUpdateSchema` (src/schemas/contact.py): every field optional.  An
absent field (`none`) is excluded by `model_dump(exclude_unset=True)`; for the
nullable column `additional_data` an explicitly supplied null is `some none`. -/
structure ContactUpdateSchema where
  first_name : Option String
  last_name : Option String
  email : Option String
  phone_number : Option String
  birthday : Option PDate
  additional_data : Option (Option String)
deriving DecidableEq, Repr

/-- True when `model_dump(exclude_unset=True)` would be empty: no field of the
update payload was supplied. -/
def ContactUpdateSchema.isEmpty (b : ContactUpdateSchema) : Bool :=
  b.first_name.isNone && b.last_name.isNone && b.email.isNone &&
    b.phone_number.isNone && b.birthday.isNone && b.additional_data.isNone

/-- The `for field, value in body.model_dump(exclude_unset=True).items():
setattr(contact, field, value)` loop followed by the commit: supplied fields
overwrite, absent fields are untouched, and the `onupdate=func.now()` of the
`updated_at` column fires when the flushed row was modified (i.e. the payload
supplied at least one field). -/
def apply_update (b : ContactUpdateSchema) (c : Contact) (now : Int) : Contact :=
  { c with
    first_name := b.first_name.getD c.first_name
    last_name := b.last_name.getD c.last_name
    email := b.email.getD c.email
    phone_number := b.phone_number.getD c.phone_number
    birthday := b.birthday.getD c.birthday
    additional_data := b.additional_data.getD c.additional_data
    updated_at := if b.isEmpty then c.updated_at else now }

/-- `update_contact(contact_id, body, user, db)`: fetch scoped by
`(Contact.id == contact_id, Contact.user_id == user.id)`; if found, apply the
partial update and commit (the row in the session is replaced); otherwise
return `None` with the database untouched. -/
def update_contact (contact_id : Nat) (b : ContactUpdateSchema) (user : DBUser)
    (db : List Contact) (now : Int) : Option Contact × List Contact :=
  match (db.filter (fun c => c.id = contact_id && c.user_id = some user.id)).head? with
  | none => (none, db)
  | some c =>
      let c' := apply_update b c now
      (some c', db.map (fun x => if x.id = c.id then c' else x))

/-- `delete_contact(contact_id, user, db)`: fetch scoped by owner; if found,
delete the row and return it, otherwise return `None` with the database
untouched. -/
def delete_contact (contact_id : Nat) (user : DBUser) (db : List Contact) :
    Option Contact × List Contact :=
  match (db.filter (fun c => c.id = contact_id && c.user_id = some user.id)).head? with
  | none => (none, db)
  | some c => (some c, db.filter (fun x => !(x.id = c.id)))

/-- The inner `days_to_birthday(birthday)` of `get_upcoming_birthdays`:
`next_birthday = datetime(today.year, birthday.month, birthday.day).date()`;
if `today > next_birthday` then `datetime(today.year + 1, ...)`; result is
`(next_birthday - today).days`.  The `datetime(...)` constructor raises
`ValueError` when the combination is invalid (e.g. Feb 29 in a non-leap year),
which propagates out of the list comprehension.  The argument is
`str(contact.birthday)`, a `YYYY-MM-DD` string that `strptime` parses back to
the same date, so the string round trip is modelled as the identity; the
`if not birthday: return None` guard never fires on it (the string of a stored
date is never empty). -/
def days_to_birthday (today birthday : PDate) : Except String Int :=
  match mkDate today.year birthday.month birthday.day with
  | .error e => .error e
  | .ok nb =>
      match (if PDate.lt nb today then mkDate (today.year + 1) birthday.month birthday.day
             else .ok nb) with
      | .error e => .error e
      | .ok nb' => .ok ((toDays nb' : Int) - (toDays today : Int))

/-- The list comprehension of `get_upcoming_birthdays`: keep the contacts with
`days_to_birthday(str(contact.birthday)) <= 7`, evaluating left to right; a
`ValueError` raised for one contact aborts the whole comprehension. -/
def upcomingFilter (today : PDate) : List Contact → Except String (List Contact)
  | [] => .ok []
  | c :: cs =>
      match days_to_birthday today c.birthday with
      | .error e => .error e
      | .ok d =>
          match upcomingFilter today cs with
          | .error e => .error e
          | .ok rest => .ok (if d ≤ 7 then c :: rest else rest)

/-- `get_upcoming_birthdays(user, db)`: `select(Contact).filter(Contact.user_id
== user.id)`, then the `days_to_birthday <= 7` comprehension over the fetched
rows (the `ContactResponse` conversion copies every field and is elided). -/
def get_upcoming_birthdays (user : DBUser) (db : List Contact) (today : PDate) :
    Except String (List Contact) :=
  upcomingFilter today (db.filter (fun c => c.user_id = some user.id))

/-! ### Outcomes of a route handler -/

/-- Outcome of calling a service function or route handler: a returned value,
a deliberately raised `HTTPException(status_code, detail)`, or an uncaught
Python exception (`KeyError`, `AttributeError`, passlib errors, ...) that
escapes the handler. -/
inductive AuthResult (α : Type) where
  | ok : α → AuthResult α
  | httpError : Nat → String → AuthResult α
  | crash : String → AuthResult α
deriving DecidableEq, Repr

/-! ### Message constants (src/conf/messages.py)

Modelled from the spec: the module `src/conf/messages.py` referenced by
src/routes/auth.py is not part of the provided sources; the spec requires the
three login failure reasons to be distinct ("three distinct failure reasons,
must not be collapsed"), so each constant is modelled as a distinct string
named after the constant the routes reference. -/

def INVALID_EMAIL : String := "INVALID_EMAIL"

def EMAIL_NOT_CONFIRMED : String := "EMAIL_NOT_CONFIRMED"

def INVALID_PASSWORD : String := "INVALID_PASSWORD"

def INVALID_REFRESH_TOKEN : String := "INVALID_REFRESH_TOKEN"

def VERIFICATION_ERROR : String := "VERIFICATION_ERROR"

/-! ### Credential hashing (passlib CryptContext with schemes=[bcrypt]) -/

/-- Model of bcrypt hashing through `CryptContext.hash`: a self-describing
digest beginning with the bcrypt identifier.  Salt and rounds are elided, so
hashing is deterministic and injective on passwords (bcrypt verification of a
hash against the password it was produced from succeeds, and against any other
password fails, with overwhelming probability). -/
def pwd_context_hash (password : String) : String :=
  "$2b$12$" ++ password

/-- Character-list prefix test (the `str.startswith` check passlib's hash
identification performs, written structurally so it evaluates by reduction). -/
def charPrefix : List Char → List Char → Bool
  | [], _ => true
  | _ :: _, [] => false
  | p :: ps, d :: ds => p = d && charPrefix ps ds

/-- True when passlib identifies the digest as a hash of the configured
bcrypt scheme; in this model, when it starts with the bcrypt marker of
`pwd_context_hash`. -/
def bcryptIdentified (digest : String) : Bool :=
  charPrefix "$2b$12$".data digest.data

/-- Model of `CryptContext.verify(secret, hash)`: when the digest is not
recognizable as a hash of a configured scheme, passlib raises
`UnknownHashError` (a `ValueError`), documented as "raises ValueError if the
hash could not be identified"; otherwise it returns whether the digest is the
bcrypt hash of the password. -/
def pwd_context_verify (password digest : String) : Except String Bool :=
  if bcryptIdentified digest then .ok (digest = pwd_context_hash password)
  else .error "UnknownHashError"

/-- `Auth.verify_password(plain_password, hashed_password)`: a bare delegation
to `self.pwd_context.verify`, with no exception handling. -/
def verify_password (plain_password hashed_password : String) : Except String Bool :=
  pwd_context_verify plain_password hashed_password

/-- `Auth.get_password_hash(password)`. -/
def get_password_hash (password : String) : String :=
  pwd_context_hash password

/-! ### Token issuance (src/services/auth.py) -/

/-- `Auth.create_access_token(data, expires_delta)`: `if expires_delta:` is a
Python truthiness test, so `None` and `0` both fall back to the 15-minute
default; a nonzero `expires_delta` is a seconds offset.  Adds `iat`, `exp` and
`scope = "access_token"` and signs with the secret key. -/
def create_access_token (sub : String) (expires_delta : Option Int) (now : Int) : Token :=
  let expire :=
    match expires_delta with
    | some d => if d ≠ 0 then now + d else now + 15 * 60
    | none => now + 15 * 60
  jwtEncode ⟨sub, some "access_token", now, expire⟩ SECRET_KEY

/-- `Auth.create_refresh_token(data, expires_delta)`: same truthiness guard,
7-day default, `scope = "refresh_token"`. -/
def create_refresh_token (sub : String) (expires_delta : Option Int) (now : Int) : Token :=
  let expire :=
    match expires_delta with
    | some d => if d ≠ 0 then now + d else now + 7 * 86400
    | none => now + 7 * 86400
  jwtEncode ⟨sub, some "refresh_token", now, expire⟩ SECRET_KEY

/-- `Auth.create_email_token(data)`: fixed 1-day lifetime, adds `iat` and
`exp` but no `scope` claim. -/
def create_email_token (sub : String) (now : Int) : Token :=
  jwtEncode ⟨sub, none, now, now + 86400⟩ SECRET_KEY

/-- `Auth.decode_refresh_token(refresh_token)`: decode, then check
`payload["scope"] == "refresh_token"` and return `payload["sub"]`; a scope
mismatch raises `HTTPException(401, "Invalid scope for token")` and a
`JWTError` from decoding raises `HTTPException(401, "Could not validate
credentials")`.  A token without a `scope` claim makes `payload["scope"]`
raise `KeyError`, which `except JWTError` does not catch. -/
def decode_refresh_token (t : Token) (now : Int) : AuthResult String :=
  match jwtDecode t SECRET_KEY now with
  | .error _ => .httpError 401 "Could not validate credentials"
  | .ok payload =>
      match payload.scope with
      | none => .crash "KeyError: scope"
      | some s =>
          if s = "refresh_token" then .ok payload.sub
          else .httpError 401 "Invalid scope for token"

/-- The token-validation prefix of `Auth.get_current_user` (lines 77-86):
decode, require `payload["scope"] == "access_token"`, take
`email = payload["sub"]`; every failure raises the one credentials exception
`HTTPException(401, "Could not validate credentials")`.  Tokens issued by this
application always carry a string `sub`, so the `if email is None` branch is
dead in the model; a missing `scope` claim raises `KeyError` uncaught. -/
def get_current_user_decode (t : Token) (now : Int) : AuthResult String :=
  match jwtDecode t SECRET_KEY now with
  | .error _ => .httpError 401 "Could not validate credentials"
  | .ok payload =>
      match payload.scope with
      | none => .crash "KeyError: scope"
      | some s =>
          if s = "access_token" then .ok payload.sub
          else .httpError 401 "Could not validate credentials"

/-- `Auth.get_email_from_token(token)`: decode and return `payload["sub"]`;
a `JWTError` is turned into `HTTPException(422, "Invalid token for email
verification")`. -/
def get_email_from_token (t : Token) (now : Int) : AuthResult String :=
  match jwtDecode t SECRET_KEY now with
  | .error _ => .httpError 422 "Invalid token for email verification"
  | .ok payload => .ok payload.sub

/-! ### User repository (src/repository/users.py) -/

/-- `get_user_by_email(email, db)`: `select(User).filter(User.email ==
email)`, then `scalars().first()`. -/
def get_user_by_email (email : String) (db : List DBUser) : Option DBUser :=
  (db.filter (fun u => u.email = email)).head?

/-- `update_token(user, token, db)`: assign `user.refresh_token = token` and
commit; the `onupdate=func.now()` of the users table refreshes `updated_at`
on the modified row. -/
def update_token (user : DBUser) (token : Option Token) (db : List DBUser) (now : Int) :
    List DBUser :=
  db.map (fun u =>
    if u.id = user.id then { u with refresh_token := token, updated_at := now } else u)

/-- `confirmed_email(email, db)` of the user repository: fetch by email (the
routes only call it for an existing user), set `confirmed = True` and commit,
refreshing `updated_at` on the modified row. -/
def repo_confirmed_email (email : String) (db : List DBUser) (now : Int) :
    AuthResult Unit × List DBUser :=
  match get_user_by_email email db with
  | none => (.crash "AttributeError: NoneType has no attribute confirmed", db)
  | some user =>
      (.ok (), db.map (fun u =>
        if u.id = user.id then { u with confirmed := true, updated_at := now } else u))

/-! ### Authentication routes (src/routes/auth.py) -/

/-- The `TokenSchema` response of login and refresh. -/
structure TokenPair where
  access_token : Token
  refresh_token : Token
  token_type : String
deriving DecidableEq, Repr

/-- `login(body, db)` (src/routes/auth.py lines 54-76): look the user up by
the submitted username (an email); 401 `INVALID_EMAIL` if absent; 401
`EMAIL_NOT_CONFIRMED` if `confirmed` is false; 401 `INVALID_PASSWORD` if
password verification returns false (a passlib exception propagates); on
success issue a fresh access+refresh pair and persist the refresh token on the
user row. -/
def login (username password : String) (db : List DBUser) (now : Int) :
    AuthResult TokenPair × List DBUser :=
  match get_user_by_email username db with
  | none => (.httpError 401 INVALID_EMAIL, db)
  | some user =>
      if !user.confirmed then (.httpError 401 EMAIL_NOT_CONFIRMED, db)
      else
        match verify_password password user.password with
        | .error e => (.crash e, db)
        | .ok false => (.httpError 401 INVALID_PASSWORD, db)
        | .ok true =>
            let access := create_access_token user.email none now
            let refresh := create_refresh_token user.email none now
            (.ok ⟨access, refresh, "bearer"⟩, update_token user (some refresh) db now)

/-- `refresh_token(credentials, db)` (src/routes/auth.py lines 79-101): decode
the presented token with expected scope `refresh_token`; resolve the user by
the decoded email — a missing user makes `user.refresh_token` raise
`AttributeError` on `None`; if the stored token differs from the presented
one, clear it (commit) and raise 401 `INVALID_REFRESH_TOKEN`; otherwise issue
a new access+refresh pair and store the new refresh token. -/
def refresh_route (t : Token) (db : List DBUser) (now : Int) :
    AuthResult TokenPair × List DBUser :=
  match decode_refresh_token t now with
  | .httpError s d => (.httpError s d, db)
  | .crash e => (.crash e, db)
  | .ok email =>
      match get_user_by_email email db with
      | none => (.crash "AttributeError: NoneType has no attribute refresh_token", db)
      | some user =>
          if user.refresh_token ≠ some t then
            (.httpError 401 INVALID_REFRESH_TOKEN, update_token user none db now)
          else
            let access := create_access_token email none now
            let refresh := create_refresh_token email none now
            (.ok ⟨access, refresh, "bearer"⟩, update_token user (some refresh) db now)

/-- `confirmed_email(token, db)` (src/routes/auth.py lines 104-123): extract
the email from the token (decode failures surface as the 422 of
`get_email_from_token`); 400 `VERIFICATION_ERROR` if no user has that email;
if already confirmed, return the message without touching the database;
otherwise flip `confirmed` through the repository and return the success
message. -/
def confirmed_email_route (t : Token) (db : List DBUser) (now : Int) :
    AuthResult String × List DBUser :=
  match get_email_from_token t now with
  | .httpError s d => (.httpError s d, db)
  | .crash e => (.crash e, db)
  | .ok email =>
      match get_user_by_email email db with
      | none => (.httpError 400 VERIFICATION_ERROR, db)
      | some user =>
          if user.confirmed then (.ok "Your email is already confirmed", db)
          else
            match repo_confirmed_email email db now with
            | (.ok _, db') => (.ok "Email confirmed", db')
            | (.httpError s d, db') => (.httpError s d, db')
            | (.crash e, db') => (.crash e, db')

/-! ### Concrete fixtures used by witnesses and counterexamples -/

/-- A confirmed user owning the fixture contacts. -/
def userA : DBUser :=
  ⟨1, "ann", "ann@example.com", "$2b$12$pw1", none, none, true, 0, 0⟩

/-- A second user, owner of nothing in the fixture database. -/
def userB : DBUser :=
  ⟨2, "bob", "bob@example.com", "$2b$12$pw2", none, none, true, 0, 0⟩

/-- Contact of `userA` with birthday June 19. -/
def contactJun19 : Contact :=
  ⟨1, "Alice", "Smith", "alice@example.com", "111", ⟨1990, 6, 19⟩, none, 0, 0, some 1⟩

/-- Contact of `userA` with birthday June 26. -/
def contactJun26 : Contact :=
  ⟨2, "Bert", "Jones", "bert@example.com", "222", ⟨1990, 6, 26⟩, none, 0, 0, some 1⟩

/-- Contact of `userA` with birthday January 2. -/
def contactJan2 : Contact :=
  ⟨3, "Cora", "Diaz", "cora@example.com", "333", ⟨1990, 1, 2⟩, none, 0, 0, some 1⟩

/-- Contact of `userA` born on a leap day, February 29. -/
def contactFeb29 : Contact :=
  ⟨4, "Dana", "Lee", "dana@example.com", "444", ⟨2020, 2, 29⟩, none, 0, 0, some 1⟩

/-! ### Theorems -/

/-- Characterization of the birthday list comprehension when no contact makes
the date construction raise: it returns exactly the contacts whose day-count
is at most 7. -/
theorem upcomingFilter_spec (today : PDate) :
    ∀ l : List Contact,
      (∀ c ∈ l, ∃ d, days_to_birthday today c.birthday = Except.ok d) →
      ∃ r, upcomingFilter today l = Except.ok r ∧
        ∀ c, c ∈ r ↔ c ∈ l ∧ ∃ d, days_to_birthday today c.birthday = Except.ok d ∧ d ≤ 7 := by
  intro l
  induction l with
  | nil =>
      intro _
      exact ⟨[], rfl, by simp [upcomingFilter]⟩
  | cons a as ih =>
      intro h
      obtain ⟨da, hda⟩ := h a (by simp)
      obtain ⟨r, hr, hmem⟩ := ih (fun c hc => h c (by simp [hc]))
      by_cases hle : da ≤ 7
      · refine ⟨a :: r, ?_, ?_⟩
        · simp [upcomingFilter, hda, hr, hle]
        · intro c
          simp only [List.mem_cons, hmem c]
          constructor
          · rintro (rfl | ⟨hc, hd⟩)
            · exact ⟨Or.inl rfl, da, hda, hle⟩
            · exact ⟨Or.inr hc, hd⟩
          · rintro ⟨rfl | hc, hd⟩
            · exact Or.inl rfl
            · exact Or.inr ⟨hc, hd⟩
      · refine ⟨r, ?_, ?_⟩
        · simp [upcomingFilter, hda, hr, hle]
        · intro c
          rw [hmem c]
          simp only [List.mem_cons]
          constructor
          · rintro ⟨hc, hd⟩
            exact ⟨Or.inr hc, hd⟩
          · rintro ⟨rfl | hc, hd⟩
            · obtain ⟨d, hd1, hd2⟩ := hd
              rw [hda] at hd1
              injection hd1 with hd1
              subst hd1
              exact absurd hd2 hle
            · exact ⟨hc, hd⟩

/-- C1 (amended): provided every owned contact's next-occurrence date
construction succeeds (which fails only for a Feb 29 birthday whose required
year is not a leap year), `get_upcoming_birthdays` returns exactly the owned
contacts whose day-count from today to the next occurrence of their birthday's
month/day (wrapping to next year when this year's occurrence has passed, 0 on
an exact match) is at most 7; concretely, with today = 2024-06-16 the contact
with birthday June 19 is included and the one with June 26 is excluded, and
with today = 2024-12-28 the contact with birthday January 2 is included. -/
theorem C1_upcoming_birthdays_window (user : DBUser) (db : List Contact) (today : PDate)
    (h : ∀ c ∈ db, c.user_id = some user.id →
      ∃ d, days_to_birthday today c.birthday = Except.ok d) :
    (∃ r, get_upcoming_birthdays user db today = Except.ok r ∧
      ∀ c, c ∈ r ↔ c ∈ db ∧ c.user_id = some user.id ∧
        ∃ d, days_to_birthday today c.birthday = Except.ok d ∧ d ≤ 7) ∧
    days_to_birthday ⟨2024, 6, 16⟩ ⟨1990, 6, 19⟩ = Except.ok 3 ∧
    days_to_birthday ⟨2024, 6, 16⟩ ⟨1990, 6, 26⟩ = Except.ok 10 ∧
    days_to_birthday ⟨2024, 12, 28⟩ ⟨1990, 1, 2⟩ = Except.ok 5 ∧
    get_upcoming_birthdays userA [contactJun19, contactJun26] ⟨2024, 6, 16⟩ =
      Except.ok [contactJun19] ∧
    get_upcoming_birthdays userA [contactJan2] ⟨2024, 12, 28⟩ = Except.ok [contactJan2] := by
  refine ⟨?_, rfl, rfl, rfl, rfl, rfl⟩
  obtain ⟨r, hr, hmem⟩ :=
    upcomingFilter_spec today (db.filter fun c => c.user_id = some user.id)
      (fun c hc => by
        rw [List.mem_filter] at hc
        exact h c hc.1 (by simpa using hc.2))
  refine ⟨r, hr, fun c => ?_⟩
  rw [hmem c, List.mem_filter]
  simp [and_assoc]

/-- Closed instance of `C1_upcoming_birthdays_window` discharging its
hypothesis on the two-contact fixture database. -/
theorem C1_upcoming_birthdays_window_witness :
    (∃ r, get_upcoming_birthdays userA [contactJun19, contactJun26] ⟨2024, 6, 16⟩ =
        Except.ok r ∧
      ∀ c, c ∈ r ↔ c ∈ [contactJun19, contactJun26] ∧ c.user_id = some userA.id ∧
        ∃ d, days_to_birthday ⟨2024, 6, 16⟩ c.birthday = Except.ok d ∧ d ≤ 7) ∧
    days_to_birthday ⟨2024, 6, 16⟩ ⟨1990, 6, 19⟩ = Except.ok 3 ∧
    days_to_birthday ⟨2024, 6, 16⟩ ⟨1990, 6, 26⟩ = Except.ok 10 ∧
    days_to_birthday ⟨2024, 12, 28⟩ ⟨1990, 1, 2⟩ = Except.ok 5 ∧
    get_upcoming_birthdays userA [contactJun19, contactJun26] ⟨2024, 6, 16⟩ =
      Except.ok [contactJun19] ∧
    get_upcoming_birthdays userA [contactJan2] ⟨2024, 12, 28⟩ = Except.ok [contactJan2] :=
  C1_upcoming_birthdays_window userA [contactJun19, contactJun26] ⟨2024, 6, 16⟩
    (by
      intro c hc _
      simp only [List.mem_cons, List.not_mem_nil, or_false] at hc
      rcases hc with rfl | rfl
      · exact ⟨3, rfl⟩
      · exact ⟨10, rfl⟩)

/-- C1 fails as stated: the claim asserts every owned contact is included or
excluded according to its day-count, but a contact born on February 29 makes
`datetime(today.year + 1, 2, 29)` raise `ValueError` when the wrap year is not
a leap year, so with today = 2024-06-16 the query raises instead of returning
a list at all. -/
theorem C1_upcoming_birthdays_counterexample :
    get_upcoming_birthdays userA [contactFeb29] ⟨2024, 6, 16⟩ = Except.error "ValueError" ∧
    days_to_birthday ⟨2024, 6, 16⟩ ⟨2020, 2, 29⟩ = Except.error "ValueError" :=
  ⟨rfl, rfl⟩

/-- C7: every read, update and delete of a contact is scoped by the pair
(contact id, owner id = caller id): when no contact of the database carries
the requested id together with the caller's owner id, `get_contact` returns
`None`, and `update_contact` and `delete_contact` return `None` leaving the
database unchanged. -/
theorem C7_ownership_scoping (cid : Nat) (caller : DBUser) (db : List Contact)
    (body : ContactUpdateSchema) (now : Int)
    (h : ∀ c ∈ db, c.id = cid → c.user_id ≠ some caller.id) :
    get_contact cid caller db = none ∧
    update_contact cid body caller db now = (none, db) ∧
    delete_contact cid caller db = (none, db) := by
  have hfilter : db.filter (fun c => c.id = cid && c.user_id = some caller.id) = [] := by
    rw [List.filter_eq_nil_iff]
    intro c hc
    simp only [Bool.and_eq_true, decide_eq_true_eq, not_and]
    intro hid
    exact h c hc hid
  refine ⟨?_, ?_, ?_⟩
  · simp [get_contact, hfilter]
  · simp [update_contact, hfilter]
  · simp [delete_contact, hfilter]

/-- Closed instance of `C7_ownership_scoping`: `userB` cannot see, rewrite or
delete `userA`'s contact. -/
theorem C7_ownership_scoping_witness :
    get_contact 1 userB [contactJun19] = none ∧
    update_contact 1 ⟨some "X", none, none, none, none, none⟩ userB [contactJun19] 5 =
      (none, [contactJun19]) ∧
    delete_contact 1 userB [contactJun19] = (none, [contactJun19]) :=
  C7_ownership_scoping 1 userB [contactJun19] ⟨some "X", none, none, none, none, none⟩ 5
    (by
      intro c hc _
      simp only [List.mem_cons, List.not_mem_nil, or_false] at hc
      subst hc
      decide)

/-- C8: update is a merge-patch: on a contact found under the caller's scope
it applies exactly the supplied fields, leaves every absent field unchanged,
keeps id, creation timestamp and owner, and refreshes `updated_at` whenever at
least one field was supplied; with the payload supplying only
`first_name = "X"` only `first_name` and `updated_at` change; on a contact that
is absent (or owned by someone else) it returns `None` without mutation. -/
theorem C8_update_merge_patch (cid : Nat) (caller : DBUser) (db : List Contact)
    (b : ContactUpdateSchema) (now : Int) :
    (∀ c, get_contact cid caller db = some c →
      ∃ c', (update_contact cid b caller db now).1 = some c' ∧
        c'.first_name = b.first_name.getD c.first_name ∧
        c'.last_name = b.last_name.getD c.last_name ∧
        c'.email = b.email.getD c.email ∧
        c'.phone_number = b.phone_number.getD c.phone_number ∧
        c'.birthday = b.birthday.getD c.birthday ∧
        c'.additional_data = b.additional_data.getD c.additional_data ∧
        c'.id = c.id ∧ c'.created_at = c.created_at ∧ c'.user_id = c.user_id ∧
        c'.updated_at = (if b.isEmpty then c.updated_at else now)) ∧
    (∀ c, get_contact cid caller db = some c →
      ∃ c', (update_contact cid ⟨some "X", none, none, none, none, none⟩ caller db now).1 =
          some c' ∧
        c'.first_name = "X" ∧ c'.last_name = c.last_name ∧ c'.email = c.email ∧
        c'.phone_number = c.phone_number ∧ c'.birthday = c.birthday ∧
        c'.additional_data = c.additional_data ∧ c'.id = c.id ∧
        c'.created_at = c.created_at ∧ c'.user_id = c.user_id ∧ c'.updated_at = now) ∧
    (get_contact cid caller db = none → update_contact cid b caller db now = (none, db)) := by
  refine ⟨?_, ?_, ?_⟩
  · intro c hc
    rw [get_contact] at hc
    refine ⟨apply_update b c now, ?_, rfl, rfl, rfl, rfl, rfl, rfl, rfl, rfl, rfl, rfl⟩
    rw [update_contact, hc]
  · intro c hc
    rw [get_contact] at hc
    refine ⟨apply_update ⟨some "X", none, none, none, none, none⟩ c now, ?_,
      rfl, rfl, rfl, rfl, rfl, rfl, rfl, rfl, rfl, ?_⟩
    · rw [update_contact, hc]
    · simp [apply_update, ContactUpdateSchema.isEmpty]
  · intro hc
    rw [get_contact] at hc
    rw [update_contact, hc]

/-- Closed instance of `C8_update_merge_patch`: updating `userA`'s contact 1
with only a first name. -/
theorem C8_update_merge_patch_witness :
    ∃ c', (update_contact 1 ⟨some "X", none, none, none, none, none⟩ userA [contactJun19] 5).1 =
        some c' ∧
      c'.first_name = "X" ∧ c'.last_name = contactJun19.last_name ∧
      c'.email = contactJun19.email ∧ c'.phone_number = contactJun19.phone_number ∧
      c'.birthday = contactJun19.birthday ∧
      c'.additional_data = contactJun19.additional_data ∧ c'.id = contactJun19.id ∧
      c'.created_at = contactJun19.created_at ∧ c'.user_id = contactJun19.user_id ∧
      c'.updated_at = 5 :=
  (C8_update_merge_patch 1 userA [contactJun19] ⟨some "X", none, none, none, none, none⟩ 5).2.1
    contactJun19 rfl

/-- A refresh token issued at time 0 for `userR`. -/
def refreshTok : Token := create_refresh_token "rita@example.com" none 0

/-- A confirmed user whose stored refresh token is `refreshTok`. -/
def userR : DBUser :=
  ⟨3, "rita", "rita@example.com", "$2b$12$pw3", none, some refreshTok, true, 0, 0⟩

/-- An unconfirmed user whose password digest is the hash of "pw4". -/
def userU : DBUser :=
  ⟨4, "uma", "uma@example.com", pwd_context_hash "pw4", none, none, false, 0, 0⟩

/-- A token signed with a key other than the application's secret. -/
def badTok : Token := ⟨⟨"ann@example.com", none, 0, 1000⟩, "not-the-secret"⟩

/-- C2 fails as stated: a token that does not decode with scope
`refresh_token` is not always answered with Unauthorized — a validly signed,
unexpired token carrying no `scope` claim at all (exactly what
`create_email_token` issues) makes `payload["scope"]` raise an uncaught
`KeyError` inside `decode_refresh_token`, which is a crash, not a 401. -/
theorem C2_refresh_counterexample :
    refresh_route (create_email_token "ann@example.com" 0) [userA] 50 =
      (AuthResult.crash "KeyError: scope", [userA]) ∧
    (refresh_route (create_email_token "ann@example.com" 0) [userA] 50).1 ≠
      AuthResult.httpError 401 "Could not validate credentials" ∧
    (refresh_route (create_email_token "ann@example.com" 0) [userA] 50).1 ≠
      AuthResult.httpError 401 "Invalid scope for token" ∧
    (refresh_route (create_email_token "ann@example.com" 0) [userA] 50).1 ≠
      AuthResult.httpError 401 INVALID_REFRESH_TOKEN := by
  refine ⟨rfl, ?_, ?_, ?_⟩ <;> decide

/-- C2 (amended): refresh fails with Unauthorized when the presented token
fails signature or expiry validation, or carries a scope claim different from
`refresh_token` (a token with no scope claim at all instead crashes with
`KeyError`); when the token decodes but differs from the refresh token stored
on the resolved user, the stored token is cleared first and the request then
fails with 401; when it equals the stored one, a new access+refresh pair is
issued and the stored refresh token is overwritten with the new one. -/
theorem C2_refresh_rotation :
    (∀ (t : Token) (db : List DBUser) (now : Int), t.key ≠ SECRET_KEY →
      refresh_route t db now = (.httpError 401 "Could not validate credentials", db)) ∧
    (∀ (t : Token) (db : List DBUser) (now : Int), t.claims.exp < now →
      refresh_route t db now = (.httpError 401 "Could not validate credentials", db)) ∧
    (∀ (t : Token) (db : List DBUser) (now : Int) (s : String), t.key = SECRET_KEY →
      ¬t.claims.exp < now → t.claims.scope = some s → s ≠ "refresh_token" →
      refresh_route t db now = (.httpError 401 "Invalid scope for token", db)) ∧
    (∀ (t : Token) (db : List DBUser) (now : Int), t.key = SECRET_KEY →
      ¬t.claims.exp < now → t.claims.scope = none →
      refresh_route t db now = (.crash "KeyError: scope", db)) ∧
    (∀ (t : Token) (db : List DBUser) (now : Int) (user : DBUser), t.key = SECRET_KEY →
      ¬t.claims.exp < now → t.claims.scope = some "refresh_token" →
      get_user_by_email t.claims.sub db = some user → user.refresh_token ≠ some t →
      refresh_route t db now =
        (.httpError 401 INVALID_REFRESH_TOKEN, update_token user none db now)) ∧
    (∀ (t : Token) (db : List DBUser) (now : Int) (user : DBUser), t.key = SECRET_KEY →
      ¬t.claims.exp < now → t.claims.scope = some "refresh_token" →
      get_user_by_email t.claims.sub db = some user → user.refresh_token = some t →
      refresh_route t db now =
        (.ok ⟨create_access_token t.claims.sub none now,
              create_refresh_token t.claims.sub none now, "bearer"⟩,
         update_token user (some (create_refresh_token t.claims.sub none now)) db now)) := by
  refine ⟨?_, ?_, ?_, ?_, ?_, ?_⟩
  · intro t db now hkey
    simp [refresh_route, decode_refresh_token, jwtDecode, hkey]
  · intro t db now hexp
    by_cases hkey : t.key = SECRET_KEY
    · simp [refresh_route, decode_refresh_token, jwtDecode, hkey, hexp]
    · simp [refresh_route, decode_refresh_token, jwtDecode, hkey]
  · intro t db now s hkey hexp hscope hs
    simp [refresh_route, decode_refresh_token, jwtDecode, hkey, hexp, hscope, hs]
  · intro t db now hkey hexp hscope
    simp [refresh_route, decode_refresh_token, jwtDecode, hkey, hexp, hscope]
  · intro t db now user hkey hexp hscope huser hne
    simp [refresh_route, decode_refresh_token, jwtDecode, hkey, hexp, hscope, huser, hne]
  · intro t db now user hkey hexp hscope huser heq
    simp [refresh_route, decode_refresh_token, jwtDecode, hkey, hexp, hscope, huser, heq]

/-- Closed instance of `C2_refresh_rotation`: the mismatch branch clears
`userR`'s stored token before failing, and the match branch rotates it. -/
theorem C2_refresh_rotation_witness :
    refresh_route (create_refresh_token "rita@example.com" none 1) [userR] 2 =
      (.httpError 401 INVALID_REFRESH_TOKEN, update_token userR none [userR] 2) ∧
    refresh_route refreshTok [userR] 2 =
      (.ok ⟨create_access_token "rita@example.com" none 2,
            create_refresh_token "rita@example.com" none 2, "bearer"⟩,
       update_token userR (some (create_refresh_token "rita@example.com" none 2)) [userR] 2) :=
  ⟨C2_refresh_rotation.2.2.2.2.1 (create_refresh_token "rita@example.com" none 1) [userR] 2
      userR rfl (by decide) rfl rfl (by decide),
   C2_refresh_rotation.2.2.2.2.2 refreshTok [userR] 2 userR rfl (by decide) rfl rfl rfl⟩

/-- C3: decoding a freshly issued access token with expected scope
`access_token` yields its subject as long as the token has not expired;
decoding a token whose scope claim differs from the expected scope fails (for
the access-token decoder and for the refresh-token decoder alike); and
decoding after expiry fails. -/
theorem C3_token_round_trip :
    (∀ (e : String) (t now : Int), now ≤ t + 15 * 60 →
      get_current_user_decode (create_access_token e none t) now = .ok e) ∧
    (∀ (t : Token) (now : Int) (s : String), t.key = SECRET_KEY → ¬t.claims.exp < now →
      t.claims.scope = some s → s ≠ "access_token" →
      get_current_user_decode t now = .httpError 401 "Could not validate credentials") ∧
    (∀ (t : Token) (now : Int) (s : String), t.key = SECRET_KEY → ¬t.claims.exp < now →
      t.claims.scope = some s → s ≠ "refresh_token" →
      decode_refresh_token t now = .httpError 401 "Invalid scope for token") ∧
    (∀ (e : String) (t now : Int), t + 15 * 60 < now →
      get_current_user_decode (create_access_token e none t) now =
        .httpError 401 "Could not validate credentials") := by
  refine ⟨?_, ?_, ?_, ?_⟩
  · intro e t now hnow
    have h1 : ¬((t + 900 : Int) < now) := by omega
    simp [get_current_user_decode, create_access_token, jwtEncode, jwtDecode, h1]
  · intro t now s hkey hexp hscope hs
    simp [get_current_user_decode, jwtDecode, hkey, hexp, hscope, hs]
  · intro t now s hkey hexp hscope hs
    simp [decode_refresh_token, jwtDecode, hkey, hexp, hscope, hs]
  · intro e t now hnow
    have h1 : (t + 900 : Int) < now := by omega
    simp [get_current_user_decode, create_access_token, jwtEncode, jwtDecode, h1]

/-- Closed instance of `C3_token_round_trip` at concrete times and subjects. -/
theorem C3_token_round_trip_witness :
    get_current_user_decode (create_access_token "ann@example.com" none 0) 100 =
      .ok "ann@example.com" ∧
    get_current_user_decode (create_refresh_token "ann@example.com" none 0) 100 =
      .httpError 401 "Could not validate credentials" ∧
    decode_refresh_token (create_access_token "ann@example.com" none 0) 100 =
      .httpError 401 "Invalid scope for token" ∧
    get_current_user_decode (create_access_token "ann@example.com" none 0) 901 =
      .httpError 401 "Could not validate credentials" :=
  ⟨C3_token_round_trip.1 "ann@example.com" 0 100 (by decide),
   C3_token_round_trip.2.1 (create_refresh_token "ann@example.com" none 0) 100
     "refresh_token" rfl (by decide) rfl (by decide),
   C3_token_round_trip.2.2.1 (create_access_token "ann@example.com" none 0) 100
     "access_token" rfl (by decide) rfl (by decide),
   C3_token_round_trip.2.2.2 "ann@example.com" 0 901 (by decide)⟩

/-- C4: login distinguishes three Unauthorized reasons — unknown email,
unconfirmed account (even when the password is correct: no hypothesis about
the password is needed), and failed password verification — and on success
issues a fresh access+refresh pair and persists the refresh token onto the
user's row, overwriting any prior stored value. -/
theorem C4_login_failure_reasons :
    (∀ (email pw : String) (db : List DBUser) (now : Int),
      get_user_by_email email db = none →
      login email pw db now = (.httpError 401 INVALID_EMAIL, db)) ∧
    (∀ (email pw : String) (db : List DBUser) (now : Int) (user : DBUser),
      get_user_by_email email db = some user → user.confirmed = false →
      login email pw db now = (.httpError 401 EMAIL_NOT_CONFIRMED, db)) ∧
    (∀ (email pw : String) (db : List DBUser) (now : Int) (user : DBUser),
      get_user_by_email email db = some user → user.confirmed = true →
      verify_password pw user.password = .ok false →
      login email pw db now = (.httpError 401 INVALID_PASSWORD, db)) ∧
    (∀ (email pw : String) (db : List DBUser) (now : Int) (user : DBUser),
      get_user_by_email email db = some user → user.confirmed = true →
      verify_password pw user.password = .ok true →
      login email pw db now =
        (.ok ⟨create_access_token user.email none now,
              create_refresh_token user.email none now, "bearer"⟩,
         update_token user (some (create_refresh_token user.email none now)) db now) ∧
      ∀ u ∈ (login email pw db now).2, u.id = user.id →
        u.refresh_token = some (create_refresh_token user.email none now)) ∧
    (INVALID_EMAIL ≠ EMAIL_NOT_CONFIRMED ∧ INVALID_EMAIL ≠ INVALID_PASSWORD ∧
      EMAIL_NOT_CONFIRMED ≠ INVALID_PASSWORD) := by
  refine ⟨?_, ?_, ?_, ?_, by decide, by decide, by decide⟩
  · intro email pw db now huser
    simp [login, huser]
  · intro email pw db now user huser hconf
    simp [login, huser, hconf]
  · intro email pw db now user huser hconf hverify
    simp [login, huser, hconf, hverify]
  · intro email pw db now user huser hconf hverify
    have hlogin : login email pw db now =
        (.ok ⟨create_access_token user.email none now,
              create_refresh_token user.email none now, "bearer"⟩,
         update_token user (some (create_refresh_token user.email none now)) db now) := by
      simp [login, huser, hconf, hverify]
    refine ⟨hlogin, ?_⟩
    intro u hu hid
    rw [hlogin] at hu
    simp only [update_token, List.mem_map] at hu
    obtain ⟨v, _, hv⟩ := hu
    by_cases hveq : v.id = user.id
    · rw [if_pos hveq] at hv
      rw [← hv]
    · rw [if_neg hveq] at hv
      subst hv
      exact absurd hid hveq

/-- Closed instance of `C4_login_failure_reasons`: the three failures and the
success on concrete users. -/
theorem C4_login_failure_reasons_witness :
    login "ghost@example.com" "pw" [userR, userU] 9 =
      (.httpError 401 INVALID_EMAIL, [userR, userU]) ∧
    login "uma@example.com" "pw4" [userR, userU] 9 =
      (.httpError 401 EMAIL_NOT_CONFIRMED, [userR, userU]) ∧
    login "rita@example.com" "wrong" [userR, userU] 9 =
      (.httpError 401 INVALID_PASSWORD, [userR, userU]) ∧
    login "rita@example.com" "pw3" [userR, userU] 9 =
      (.ok ⟨create_access_token "rita@example.com" none 9,
            create_refresh_token "rita@example.com" none 9, "bearer"⟩,
       update_token userR (some (create_refresh_token "rita@example.com" none 9))
         [userR, userU] 9) :=
  ⟨C4_login_failure_reasons.1 "ghost@example.com" "pw" [userR, userU] 9 rfl,
   C4_login_failure_reasons.2.1 "uma@example.com" "pw4" [userR, userU] 9 userU rfl rfl,
   C4_login_failure_reasons.2.2.1 "rita@example.com" "wrong" [userR, userU] 9 userR rfl rfl
     (by simp [verify_password, pwd_context_verify, pwd_context_hash, bcryptIdentified,
       charPrefix, userR]),
   (C4_login_failure_reasons.2.2.2.1 "rita@example.com" "pw3" [userR, userU] 9 userR rfl rfl
     (by simp [verify_password, pwd_context_verify, pwd_context_hash, bcryptIdentified,
       charPrefix, userR])).1⟩

/-- C5 fails as stated: a confirmation-token decode failure is surfaced as
422 Unprocessable Entity (detail "Invalid token for email verification"), not
as Unauthorized (401), and a decoded email matching no user yields 400 Bad
Request, not NotFound (404). -/
theorem C5_confirm_email_counterexample :
    confirmed_email_route badTok [userA] 0 =
      (.httpError 422 "Invalid token for email verification", [userA]) ∧
    (confirmed_email_route badTok [userA] 0).1 ≠
      .httpError 401 "Invalid token for email verification" ∧
    confirmed_email_route (create_email_token "ghost@example.com" 0) [userA] 5 =
      (.httpError 400 VERIFICATION_ERROR, [userA]) ∧
    (confirmed_email_route (create_email_token "ghost@example.com" 0) [userA] 5).1 ≠
      .httpError 404 VERIFICATION_ERROR := by
  refine ⟨rfl, ?_, rfl, ?_⟩ <;> decide

/-- C5 (amended): email confirmation surfaces a token-decode failure as 422
Unprocessable Entity, fails with 400 Bad Request when no user matches the
decoded email, returns the "already confirmed" message without any database
mutation when the user is already confirmed (in particular `updated_at` is
untouched), and otherwise flips `confirmed` to true and persists, refreshing
that row's `updated_at`. -/
theorem C5_confirm_email_flow :
    (∀ (t : Token) (db : List DBUser) (now : Int), t.key ≠ SECRET_KEY →
      confirmed_email_route t db now =
        (.httpError 422 "Invalid token for email verification", db)) ∧
    (∀ (t : Token) (db : List DBUser) (now : Int), t.claims.exp < now →
      confirmed_email_route t db now =
        (.httpError 422 "Invalid token for email verification", db)) ∧
    (∀ (t : Token) (db : List DBUser) (now : Int), t.key = SECRET_KEY →
      ¬t.claims.exp < now → get_user_by_email t.claims.sub db = none →
      confirmed_email_route t db now = (.httpError 400 VERIFICATION_ERROR, db)) ∧
    (∀ (t : Token) (db : List DBUser) (now : Int) (user : DBUser), t.key = SECRET_KEY →
      ¬t.claims.exp < now → get_user_by_email t.claims.sub db = some user →
      user.confirmed = true →
      confirmed_email_route t db now = (.ok "Your email is already confirmed", db)) ∧
    (∀ (t : Token) (db : List DBUser) (now : Int) (user : DBUser), t.key = SECRET_KEY →
      ¬t.claims.exp < now → get_user_by_email t.claims.sub db = some user →
      user.confirmed = false →
      confirmed_email_route t db now =
        (.ok "Email confirmed",
         db.map (fun u =>
           if u.id = user.id then { u with confirmed := true, updated_at := now }
           else u))) := by
  refine ⟨?_, ?_, ?_, ?_, ?_⟩
  · intro t db now hkey
    simp [confirmed_email_route, get_email_from_token, jwtDecode, hkey]
  · intro t db now hexp
    by_cases hkey : t.key = SECRET_KEY
    · simp [confirmed_email_route, get_email_from_token, jwtDecode, hkey, hexp]
    · simp [confirmed_email_route, get_email_from_token, jwtDecode, hkey]
  · intro t db now hkey hexp huser
    simp [confirmed_email_route, get_email_from_token, jwtDecode, hkey, hexp, huser]
  · intro t db now user hkey hexp huser hconf
    simp [confirmed_email_route, get_email_from_token, jwtDecode, hkey, hexp, huser, hconf]
  · intro t db now user hkey hexp huser hconf
    simp [confirmed_email_route, get_email_from_token, jwtDecode, hkey, hexp, huser, hconf,
      repo_confirmed_email]

/-- Closed instance of `C5_confirm_email_flow`: confirming the unconfirmed
`userU` flips the flag and refreshes `updated_at`; re-confirming the already
confirmed `userA` changes nothing. -/
theorem C5_confirm_email_flow_witness :
    confirmed_email_route (create_email_token "ann@example.com" 0) [userA, userU] 7 =
      (.ok "Your email is already confirmed", [userA, userU]) ∧
    confirmed_email_route (create_email_token "uma@example.com" 0) [userA, userU] 7 =
      (.ok "Email confirmed",
       [userA, { userU with confirmed := true, updated_at := 7 }]) :=
  ⟨C5_confirm_email_flow.2.2.2.1 (create_email_token "ann@example.com" 0) [userA, userU] 7
      userA rfl (by decide) rfl rfl,
   by
    have h := C5_confirm_email_flow.2.2.2.2 (create_email_token "uma@example.com" 0)
      [userA, userU] 7 userU rfl (by decide) rfl rfl
    rw [h]
    rfl⟩

/-- C6 fails as stated: `verify_password` delegates to passlib's
`CryptContext.verify` with no exception handling, and passlib raises
`UnknownHashError` (a `ValueError`) on a digest it cannot identify — the empty
string here — instead of returning false. -/
theorem C6_verify_counterexample :
    verify_password "secret" "" = .error "UnknownHashError" ∧
    verify_password "secret" "" ≠ .ok false ∧
    verify_password "secret" "not-a-hash" = .error "UnknownHashError" := by
  refine ⟨rfl, ?_, rfl⟩
  intro h
  simp [verify_password, pwd_context_verify, bcryptIdentified, charPrefix] at h

/-- C6 (amended): `verify_password` returns a boolean only for digests passlib
identifies as bcrypt hashes (true exactly on the digest hashed from the same
password); on a malformed digest it raises `UnknownHashError` rather than
returning false. -/
theorem C6_verify_behaviour :
    (∀ p d : String, bcryptIdentified d = true →
      verify_password p d = .ok (d = pwd_context_hash p)) ∧
    (∀ p d : String, bcryptIdentified d = false →
      verify_password p d = .error "UnknownHashError") ∧
    (∀ p : String, verify_password p (get_password_hash p) = .ok true) := by
  refine ⟨?_, ?_, ?_⟩
  · intro p d h
    simp [verify_password, pwd_context_verify, h]
  · intro p d h
    simp [verify_password, pwd_context_verify, h]
  · intro p
    have h : bcryptIdentified (pwd_context_hash p) = true := by
      simp [bcryptIdentified, pwd_context_hash, charPrefix]
    simp [verify_password, get_password_hash, pwd_context_verify, h]

/-- Closed instance of `C6_verify_behaviour` on concrete digests. -/
theorem C6_verify_behaviour_witness :
    verify_password "pw3" "$2b$12$pw3" = .ok true ∧
    verify_password "other" "$2b$12$pw3" = .ok false ∧
    verify_password "pw3" "plainly-wrong" = .error "UnknownHashError" :=
  ⟨C6_verify_behaviour.2.2 "pw3",
   by
    have h := C6_verify_behaviour.1 "other" "$2b$12$pw3" rfl
    rw [h]
    rfl,
   C6_verify_behaviour.2.1 "pw3" "plainly-wrong" rfl⟩

/-- C9 fails as stated: the override guard is a Python truthiness test, so an
explicit override of 0 seconds does not replace the default — the access
token issued with `expires_delta = 0` at time 0 still expires at 900 seconds
(the 15-minute default), not at 0, and the refresh token likewise falls back
to its 7-day default. -/
theorem C9_lifetimes_counterexample :
    (create_access_token "e@x" (some 0) 0).claims.exp = 900 ∧
    (create_access_token "e@x" (some 0) 0).claims.exp ≠ 0 ∧
    (create_refresh_token "e@x" (some 0) 0).claims.exp = 604800 ∧
    (create_refresh_token "e@x" (some 0) 0).claims.exp ≠ 0 := by
  refine ⟨rfl, ?_, rfl, ?_⟩ <;> decide

/-- C9 (amended): the access token's default lifetime is 15 minutes and the
refresh token's is 7 days, each overridable by an explicit nonzero seconds
value (an explicit zero is falsy in the `if expires_delta:` guard and falls
back to the default); the email-confirmation token's lifetime is fixed at 1
day and it carries no scope claim. -/
theorem C9_token_lifetimes :
    (∀ (e : String) (now : Int),
      (create_access_token e none now).claims.exp = now + 15 * 60 ∧
      (create_access_token e none now).claims.scope = some "access_token") ∧
    (∀ (e : String) (now d : Int), d ≠ 0 →
      (create_access_token e (some d) now).claims.exp = now + d) ∧
    (∀ (e : String) (now : Int),
      (create_access_token e (some 0) now).claims.exp = now + 15 * 60) ∧
    (∀ (e : String) (now : Int),
      (create_refresh_token e none now).claims.exp = now + 7 * 86400 ∧
      (create_refresh_token e none now).claims.scope = some "refresh_token") ∧
    (∀ (e : String) (now d : Int), d ≠ 0 →
      (create_refresh_token e (some d) now).claims.exp = now + d) ∧
    (∀ (e : String) (now : Int),
      (create_refresh_token e (some 0) now).claims.exp = now + 7 * 86400) ∧
    (∀ (e : String) (now : Int),
      (create_email_token e now).claims.exp = now + 86400 ∧
      (create_email_token e now).claims.scope = none) := by
  refine ⟨fun e now => ⟨rfl, rfl⟩, ?_, fun e now => rfl, fun e now => ⟨rfl, rfl⟩, ?_,
    fun e now => rfl, fun e now => ⟨rfl, rfl⟩⟩
  · intro e now d hd
    simp [create_access_token, jwtEncode, hd]
  · intro e now d hd
    simp [create_refresh_token, jwtEncode, hd]

/-- Closed instance of `C9_token_lifetimes` with a concrete nonzero
override. -/
theorem C9_token_lifetimes_witness :
    (create_access_token "e@x" (some 60) 10).claims.exp = 10 + 60 ∧
    (create_refresh_token "e@x" (some 60) 10).claims.exp = 10 + 60 ∧
    (create_access_token "e@x" none 10).claims.exp = 10 + 15 * 60 ∧
    (create_email_token "e@x" 10).claims.exp = 10 + 86400 :=
  ⟨C9_token_lifetimes.2.1 "e@x" 10 60 (by decide),
   C9_token_lifetimes.2.2.2.2.1 "e@x" 10 60 (by decide),
   (C9_token_lifetimes.1 "e@x" 10).1,
   (C9_token_lifetimes.2.2.2.2.2.2 "e@x" 10).1⟩

/-- C10: the refresh route dereferences the user resolved from the decoded
subject without a `None` check — for a validly signed, unexpired refresh-scoped
token whose subject email matches no stored user, `user.refresh_token` is
evaluated on `None` and the request crashes with `AttributeError` rather than
reaching the guarded 401 branch. -/
theorem C10_refresh_missing_user (t : Token) (db : List DBUser) (now : Int)
    (hkey : t.key = SECRET_KEY) (hexp : ¬t.claims.exp < now)
    (hscope : t.claims.scope = some "refresh_token")
    (huser : get_user_by_email t.claims.sub db = none) :
    refresh_route t db now =
      (.crash "AttributeError: NoneType has no attribute refresh_token", db) := by
  simp [refresh_route, decode_refresh_token, jwtDecode, hkey, hexp, hscope, huser]

/-- Closed instance of `C10_refresh_missing_user`: a freshly issued refresh
token for an email absent from the database crashes the route. -/
theorem C10_refresh_missing_user_witness :
    refresh_route (create_refresh_token "ghost@example.com" none 0) [userA, userR] 10 =
      (.crash "AttributeError: NoneType has no attribute refresh_token", [userA, userR]) :=
  C10_refresh_missing_user (create_refresh_token "ghost@example.com" none 0) [userA, userR]
    10 rfl (by decide) rfl rfl

end HW14
